import Mathlib

/-!
Shallow embedding of the LanceDB MCP server gateway
(`src/lancedb_mcp/server.py` and `src/lancedb_mcp/models.py`).

The gateway owns a connection flag, a persistent external store (the LanceDB
database directory, modelled as an association list from table names to table
contents), and a cache of opened table handles.  Vector scalars are modelled
as `Int`: no arithmetic is ever performed on vector entries by the gateway
(floats only flow through to the external store), so only lengths and
structural equality matter.

Python exceptions are modelled by an `Err` value carrying the exception class
and its message; every public operation returns the (possibly mutated) state
together with `Except Err α`, mirroring the fact that Python mutations
performed before a raise are not rolled back.
-/

namespace LanceDB

/-- The exception classes that appear in the sources: `DatabaseError`
(defined in `server.py`), Python's builtin `ValueError`, and pydantic's
`ValidationError` (raised by the models in `models.py`). -/
inductive ErrKind
  | databaseError
  | valueError
  | validationError
  deriving DecidableEq, Repr

/-- A raised exception: its class and its message (`str(e)`). -/
structure Err where
  kind : ErrKind
  msg : String
  deriving DecidableEq, Repr

/-- One stored row, as built by `add_vector` (server.py lines 288-297):
the vector, the optional text payload and the optional JSON-encoded
metadata string. -/
structure StoredRecord where
  vector : List Int
  text : Option String
  metadata : Option String
  deriving DecidableEq, Repr

/-- A table in the external store: its fixed vector dimension
(`schema.field("vector").type.list_size`) and its rows. -/
structure Table where
  dimension : Nat
  records : List StoredRecord
  deriving DecidableEq, Repr

/-- The external store: table name to table contents.  Keys are unique in
every state reachable through the gateway. -/
abbrev Store := List (String × Table)

/-- The gateway's cache `self.tables`: table name to the connection
generation at which the handle was opened.  The generation models Python
object identity of the handle: handles opened by different `start` calls are
distinct objects. -/
abbrev Cache := List (String × Nat)

/-- Metadata dictionaries, modelled as string-to-string association lists. -/
abbrev Metadata := List (String × String)

/-- `db.open_table(name)` / `db[name]` on the external store. -/
def lookupTable : Store → String → Option Table
  | [], _ => none
  | p :: rest, n => if p.1 = n then some p.2 else lookupTable rest n

/-- `db.create_table(name, ..., mode="overwrite")`: replace the table of
that name, or add it. -/
def insertTable : Store → String → Table → Store
  | [], n, t => [(n, t)]
  | p :: rest, n, t => if p.1 = n then (n, t) :: rest else p :: insertTable rest n t

/-- `table.add(df)` through a handle for `name`: append one row to the
named table. -/
def updateTableRecords : Store → String → StoredRecord → Store
  | [], _, _ => []
  | p :: rest, n, r =>
    if p.1 = n then (p.1, { p.2 with records := p.2.records ++ [r] }) :: rest
    else p :: updateTableRecords rest n r

/-- `db.table_names()`. -/
def tableNames (st : Store) : List String := st.map (·.1)

/-- `self.tables[name]` lookup. -/
def lookupCache : Cache → String → Option Nat
  | [], _ => none
  | p :: rest, n => if p.1 = n then some p.2 else lookupCache rest n

/-- `self.tables[name] = handle`. -/
def insertCache : Cache → String → Nat → Cache
  | [], n, g => [(n, g)]
  | p :: rest, n, g => if p.1 = n then (n, g) :: rest else p :: insertCache rest n g

/-- The whole gateway state: `self.db` (here a flag: the store itself
persists on disk across disconnects), the persistent store, `self.tables`,
and the connection generation counter (a model of handle identity). -/
structure GatewayState where
  store : Store
  connected : Bool
  cache : Cache
  gen : Nat
  deriving DecidableEq, Repr

/-- A fresh server: `LanceDBServer.__init__` sets `self.db = None` and
`self.tables = {}`, with an empty database directory. -/
def initialState : GatewayState :=
  { store := [], connected := false, cache := [], gen := 0 }

/-- The `_init` bookkeeping table that `start` creates from a dummy
one-row DataFrame; it is not a vector table. -/
def initTable : Table := { dimension := 0, records := [] }

/-- `start` (server.py lines 78-126): connect, create the `_init` table in
overwrite mode, reset the cache, then open and cache every existing table.
All freshly opened handles carry the new generation. -/
def start (s : GatewayState) : GatewayState × Except Err Unit :=
  let store1 := insertTable s.store "_init" initTable
  let names := (tableNames store1).filter (fun n => n ≠ "_init")
  ({ store := store1, connected := true,
     cache := names.map (fun n => (n, s.gen + 1)), gen := s.gen + 1 },
   Except.ok ())

/-- `stop` (server.py lines 128-145): clear the table cache, drop the
connection reference.  There is no underlying close call in the source, so
teardown always succeeds. -/
def stop (s : GatewayState) : GatewayState × Except Err Unit :=
  ({ s with connected := false, cache := [] }, Except.ok ())

/-- The message of `_validate_db_state` (server.py lines 221-225). -/
def notInitializedMsg : String := "Database not initialized"

/-- The text of the exception raised by the external library's
`open_table` for a missing table (opaque to the gateway; `str(e)` is
interpolated into the gateway's own message in `add_vector`). -/
def openTableErrMsg (name : String) : String :=
  "Table " ++ name ++ " was not found"

/-- The placeholder row `create_table` seeds every new table with
(server.py lines 242-247): a zero vector of the table's dimension, null
text, null metadata. -/
def placeholderRecord (dim : Nat) : StoredRecord :=
  { vector := List.replicate dim 0, text := none, metadata := none }

/-- The table contents right after `db.create_table` in `create_table`. -/
def newTable (dim : Nat) : Table :=
  { dimension := dim, records := [placeholderRecord dim] }

/-- `create_table` body (server.py lines 227-263) before the outermost
exception wrapper: state validation, dimension check (a `ValueError`),
then store creation in overwrite mode plus cache insertion. -/
def create_table_inner (s : GatewayState) (table_name : String) (dimension : Int) :
    GatewayState × Except Err String :=
  if s.connected = false then
    (s, Except.error ⟨ErrKind.databaseError, notInitializedMsg⟩)
  else if dimension ≤ 0 then
    (s, Except.error ⟨ErrKind.valueError, "Vector dimension must be positive"⟩)
  else
    ({ s with store := insertTable s.store table_name (newTable dimension.toNat),
              cache := insertCache s.cache table_name s.gen },
     Except.ok ("Created table " ++ table_name))

/-- `create_table` (server.py lines 227-266): every inner exception is
re-raised as `DatabaseError("Failed to create table: " + str(e))`. -/
def create_table (s : GatewayState) (table_name : String) (dimension : Int) :
    GatewayState × Except Err String :=
  match create_table_inner s table_name dimension with
  | (s2, Except.ok m) => (s2, Except.ok m)
  | (s2, Except.error e) =>
    (s2, Except.error ⟨ErrKind.databaseError, "Failed to create table: " ++ e.msg⟩)

/-- Python truthiness of an optional string (`if text`, `if metadata_str`):
`None` and the empty string are falsy. -/
def pyTruthyStr : Option String → Bool
  | none => false
  | some t => !(t = "")

/-- Python truthiness of an optional dict (`if metadata`): `None` and the
empty dict are falsy. -/
def pyTruthyMeta : Option Metadata → Bool
  | none => false
  | some m => !m.isEmpty

/-- A JSON string literal, as `json.dumps` renders dict keys and string
values. -/
def jsonQuote (s : String) : String := "\"" ++ s ++ "\""

/-- `json.dumps` on a string-valued dict. -/
def jsonDumps (m : Metadata) : String :=
  "\x7b" ++ String.intercalate ", " (m.map (fun kv => jsonQuote kv.1 ++ ": " ++ jsonQuote kv.2)) ++ "\x7d"

/-- The row built by `add_vector` (server.py lines 288-297):
`metadata_str = json.dumps(metadata) if metadata else None`,
`"text": [text] if text else [None]`,
`"metadata": [metadata_str] if metadata_str else [None]`. -/
def mkStoredRecord (vector : List Int) (text : Option String) (md : Option Metadata) :
    StoredRecord :=
  let metadata_str : Option String := if pyTruthyMeta md then some (jsonDumps (md.getD [])) else none
  { vector := vector,
    text := if pyTruthyStr text then text else none,
    metadata := if pyTruthyStr metadata_str then metadata_str else none }

/-- `add_vector` after table resolution (server.py lines 281-306): read the
schema dimension through the handle, validate the vector length (a
`ValueError` carrying both lengths), then append the row. -/
def add_vector_body (s1 : GatewayState) (table_name : String) (vector : List Int)
    (text : Option String) (md : Option Metadata) : GatewayState × Except Err String :=
  match lookupTable s1.store table_name with
  | none =>
    -- a cached handle whose table is gone from the store; unreachable in
    -- gateway-reachable states (cached names are always present in the store)
    (s1, Except.error ⟨ErrKind.databaseError,
      "Table " ++ table_name ++ " not found: " ++ openTableErrMsg table_name⟩)
  | some t =>
    if vector.length ≠ t.dimension then
      (s1, Except.error ⟨ErrKind.valueError,
        "Vector dimension mismatch: expected " ++ toString t.dimension ++
          ", got " ++ toString vector.length⟩)
    else
      ({ s1 with store := updateTableRecords s1.store table_name (mkStoredRecord vector text md) },
       Except.ok ("Added vector to table " ++ table_name))

/-- `add_vector` body (server.py lines 268-306) before the outermost
wrapper: state validation, then cache-or-open table resolution (the opened
handle is cached before any further check), then `add_vector_body`. -/
def add_vector_inner (s : GatewayState) (table_name : String) (vector : List Int)
    (text : Option String) (md : Option Metadata) : GatewayState × Except Err String :=
  if s.connected = false then
    (s, Except.error ⟨ErrKind.databaseError, notInitializedMsg⟩)
  else
    match lookupCache s.cache table_name with
    | some _ => add_vector_body s table_name vector text md
    | none =>
      match lookupTable s.store table_name with
      | some _ =>
        add_vector_body { s with cache := insertCache s.cache table_name s.gen }
          table_name vector text md
      | none =>
        (s, Except.error ⟨ErrKind.databaseError,
          "Table " ++ table_name ++ " not found: " ++ openTableErrMsg table_name⟩)

/-- `add_vector` (server.py lines 268-310): every inner exception is
re-raised as `DatabaseError(str(e))`. -/
def add_vector (s : GatewayState) (table_name : String) (vector : List Int)
    (text : Option String) (md : Option Metadata) : GatewayState × Except Err String :=
  match add_vector_inner s table_name vector text md with
  | (s2, Except.ok m) => (s2, Except.ok m)
  | (s2, Except.error e) => (s2, Except.error ⟨ErrKind.databaseError, e.msg⟩)

/-- `search_vectors` after table resolution (server.py lines 327-339):
schema dimension read, query-vector length validation, then the store's
nearest-neighbor query `table.search(qv).limit(limit).to_list()`.  The
store's ranking is an external primitive, passed in as `rank`. -/
def search_vectors_body (rank : List StoredRecord → List Int → List StoredRecord)
    (s1 : GatewayState) (table_name : String) (query_vector : List Int) (limit : Int) :
    GatewayState × Except Err (List StoredRecord) :=
  match lookupTable s1.store table_name with
  | none =>
    (s1, Except.error ⟨ErrKind.databaseError, "Table " ++ table_name ++ " not found"⟩)
  | some t =>
    if query_vector.length ≠ t.dimension then
      (s1, Except.error ⟨ErrKind.valueError,
        "Query vector dimension mismatch: expected " ++ toString t.dimension ++
          ", got " ++ toString query_vector.length⟩)
    else
      (s1, Except.ok ((rank t.records query_vector).take limit.toNat))

/-- `search_vectors` body (server.py lines 312-339) before the outermost
wrapper: state validation, cache-or-open table resolution, then
`search_vectors_body`. -/
def search_vectors_inner (rank : List StoredRecord → List Int → List StoredRecord)
    (s : GatewayState) (table_name : String) (query_vector : List Int) (limit : Int) :
    GatewayState × Except Err (List StoredRecord) :=
  if s.connected = false then
    (s, Except.error ⟨ErrKind.databaseError, notInitializedMsg⟩)
  else
    match lookupCache s.cache table_name with
    | some _ => search_vectors_body rank s table_name query_vector limit
    | none =>
      match lookupTable s.store table_name with
      | some _ =>
        search_vectors_body rank { s with cache := insertCache s.cache table_name s.gen }
          table_name query_vector limit
      | none =>
        (s, Except.error ⟨ErrKind.databaseError, "Table " ++ table_name ++ " not found"⟩)

/-- `search_vectors` (server.py lines 312-343): every inner exception is
re-raised as `DatabaseError("Failed to search vectors: " + str(e))`. -/
def search_vectors (rank : List StoredRecord → List Int → List StoredRecord)
    (s : GatewayState) (table_name : String) (query_vector : List Int) (limit : Int) :
    GatewayState × Except Err (List StoredRecord) :=
  match search_vectors_inner rank s table_name query_vector limit with
  | (s2, Except.ok r) => (s2, Except.ok r)
  | (s2, Except.error e) =>
    (s2, Except.error ⟨ErrKind.databaseError, "Failed to search vectors: " ++ e.msg⟩)

/-- `list_resources` (server.py lines 195-219): with no connection it
silently returns the empty list; otherwise it returns the store's table
names with the `_init` bookkeeping table filtered out.  Resources are
modelled by their table names. -/
def list_resources (s : GatewayState) : GatewayState × Except Err (List String) :=
  if s.connected = false then (s, Except.ok [])
  else (s, Except.ok ((tableNames s.store).filter (fun n => n ≠ "_init")))

/-- Python `str.isalnum`: true iff the string is non-empty and every
character is alphanumeric (restricted here to the ASCII classes the
claims exercise). -/
def str_isalnum (v : String) : Bool := !(v = "") && v.data.all Char.isAlphanum

/-- `TableConfig` from models.py: name and dimension. -/
structure TableConfig where
  name : String
  dimension : Int
  deriving DecidableEq, Repr

/-- Constructing a `TableConfig` (models.py lines 10-22): pydantic checks
`min_length=1` and `gt=0` on the fields and runs the `validate_name`
field validator (`Table name must be alphanumeric`); any failure is a
pydantic `ValidationError`. -/
def TableConfig.validate (name : String) (dimension : Int) : Except Err TableConfig :=
  if name.length < 1 then
    Except.error ⟨ErrKind.validationError, "String should have at least 1 character"⟩
  else if str_isalnum name = false then
    Except.error ⟨ErrKind.validationError, "Table name must be alphanumeric"⟩
  else if dimension ≤ 0 then
    Except.error ⟨ErrKind.validationError, "Input should be greater than 0"⟩
  else
    Except.ok ⟨name, dimension⟩

/-! Concrete scenario states used by counterexamples and witnesses. -/

/-- A freshly connected server on an empty database directory. -/
def s_conn : GatewayState := (start initialState).1

/-- After `create_table("t", 3)`. -/
def s_t3 : GatewayState := (create_table s_conn "t" 3).1

/-- After one further `add_vector("t", [1,2,3], text="a")`. -/
def s_added : GatewayState := (add_vector s_t3 "t" [1, 2, 3] (some "a") none).1

/-- After re-running `create_table("t", 3)` on `s_added`. -/
def s_re : GatewayState := (create_table s_added "t" 3).1

/-- After two `add_vector` calls on `s_t3`. -/
def s_two : GatewayState :=
  (add_vector (add_vector s_t3 "t" [1, 0, 0] (some "a") none).1 "t" [0, 1, 0] (some "b") none).1

/-- The contents of table `t` in `s_two`: the creation placeholder row plus
the two added records. -/
def t_two : Table :=
  { dimension := 3,
    records := [placeholderRecord 3,
      { vector := [1, 0, 0], text := some "a", metadata := none },
      { vector := [0, 1, 0], text := some "b", metadata := none }] }

/-! Helper lemmas. -/

lemma string_data_injective : Function.Injective String.data := by
  intro a b h
  cases a; cases b; exact congrArg String.mk h

lemma string_append_left_cancel {p a b : String} (h : p ++ a = p ++ b) : a = b :=
  string_data_injective
    (List.append_cancel_left (show p.data ++ a.data = p.data ++ b.data from congrArg String.data h))

lemma string_ne_of_head_ne {a b : String} (h : a.data.head? ≠ b.data.head?) : a ≠ b :=
  fun he => h (he ▸ rfl)

lemma lookupTable_insertTable (st : Store) (n : String) (t : Table) :
    lookupTable (insertTable st n t) n = some t := by
  induction st with
  | nil => simp [insertTable, lookupTable]
  | cons p rest ih =>
    by_cases h : p.1 = n
    · simp [insertTable, h, lookupTable]
    · simp [insertTable, h, lookupTable, ih]

lemma lookupTable_updateTableRecords (st : Store) (n : String) (r : StoredRecord) :
    lookupTable (updateTableRecords st n r) n =
      (lookupTable st n).map (fun t => { t with records := t.records ++ [r] }) := by
  induction st with
  | nil => simp [updateTableRecords, lookupTable]
  | cons p rest ih =>
    by_cases h : p.1 = n
    · simp [updateTableRecords, h, lookupTable]
    · simp [updateTableRecords, h, lookupTable, ih]

lemma jsonDumps_ne_empty (m : Metadata) : jsonDumps m ≠ "" := by
  apply string_ne_of_head_ne
  intro h
  simp [jsonDumps] at h

lemma start_cache_gen (s : GatewayState) :
    ∀ p ∈ (start s).1.cache, p.2 = s.gen + 1 := by
  intro p hp
  simp only [start] at hp
  obtain ⟨n, hn, he⟩ := List.mem_map.mp hp
  rw [← he]

/-! Claim theorems. -/

/-- Claim C1, counterexample: on a dimension-3 table, `add_vector` with a
length-2 vector fails with `DatabaseError` (the inner `ValueError` is
re-raised as `DatabaseError(str(e))`), not with a `ValidationError` as the
claim states. -/
theorem C1_counterexample :
    (add_vector s_t3 "t" [1, 2] none none).2 =
      Except.error ⟨ErrKind.databaseError, "Vector dimension mismatch: expected 3, got 2"⟩
    ∧ ErrKind.databaseError ≠ ErrKind.validationError := ⟨rfl, by decide⟩

/-- Claim C1, amended: for every table of dimension `d` and vector `v` with
`len(v) ≠ d`, `add_vector` and `search_vectors` fail with a `DatabaseError`
(wrapping the internal `ValueError`) whose message carries both the expected
and the actual length, and the store's contents are unchanged (no partial
insert). -/
theorem C1_dimension_mismatch (rank : List StoredRecord → List Int → List StoredRecord)
    (s : GatewayState) (name : String) (t : Table) (v : List Int)
    (text : Option String) (md : Option Metadata) (lim : Int)
    (hc : s.connected = true)
    (ht : lookupTable s.store name = some t)
    (hlen : v.length ≠ t.dimension) :
    (add_vector s name v text md).2 = Except.error ⟨ErrKind.databaseError,
        "Vector dimension mismatch: expected " ++ toString t.dimension ++
          ", got " ++ toString v.length⟩
    ∧ (add_vector s name v text md).1.store = s.store
    ∧ (search_vectors rank s name v lim).2 = Except.error ⟨ErrKind.databaseError,
        "Failed to search vectors: " ++ ("Query vector dimension mismatch: expected " ++
          toString t.dimension ++ ", got " ++ toString v.length)⟩
    ∧ (search_vectors rank s name v lim).1.store = s.store := by
  rcases hcc : lookupCache s.cache name with _ | g <;>
    simp [add_vector, add_vector_inner, add_vector_body,
      search_vectors, search_vectors_inner, search_vectors_body, hc, hcc, ht, hlen]

/-- Witness for C1 at a concrete input. -/
theorem C1_witness :
    s_t3.connected = true
    ∧ lookupTable s_t3.store "t" = some (newTable 3)
    ∧ ([1, 2] : List Int).length ≠ (newTable 3).dimension
    ∧ (add_vector s_t3 "t" [1, 2] none none).2 = Except.error ⟨ErrKind.databaseError,
        "Vector dimension mismatch: expected " ++ toString (newTable 3).dimension ++
          ", got " ++ toString ([1, 2] : List Int).length⟩ :=
  ⟨rfl, rfl, by decide,
    (C1_dimension_mismatch (fun l _ => l) s_t3 "t" (newTable 3) [1, 2] none none 10
      rfl rfl (by decide)).1⟩

/-- Claim C2, counterexample: with a live connection, `create_table` with
`dimension = 0` fails with `DatabaseError`, not `ValidationError` as the
claim states (and indeed no table is created). -/
theorem C2_counterexample :
    (create_table s_conn "t" 0).2 = Except.error ⟨ErrKind.databaseError,
      "Failed to create table: Vector dimension must be positive"⟩
    ∧ lookupTable (create_table s_conn "t" 0).1.store "t" = none
    ∧ ErrKind.databaseError ≠ ErrKind.validationError := ⟨rfl, rfl, by decide⟩

/-- Claim C2, amended: with a live connection, `create_table` with
`dimension ≤ 0` fails with `DatabaseError` (wrapping the internal
`ValueError` "Vector dimension must be positive") and leaves the state
unchanged, so no table is created; `create_table` itself performs no name
validation — empty or non-alphanumeric names are rejected with a
`ValidationError` only by the separate `TableConfig` model. -/
theorem C2_validation (s : GatewayState) (name : String) (d : Int)
    (hc : s.connected = true) (hd : d ≤ 0) :
    create_table s name d = (s, Except.error ⟨ErrKind.databaseError,
        "Failed to create table: Vector dimension must be positive"⟩)
    ∧ (∀ nm dm, str_isalnum nm = false →
        ∃ m, TableConfig.validate nm dm = Except.error ⟨ErrKind.validationError, m⟩) := by
  constructor
  · simp [create_table, create_table_inner, hc, hd]
  · intro nm dm h
    unfold TableConfig.validate
    by_cases h1 : nm.length < 1
    · exact ⟨"String should have at least 1 character", by simp [h1]⟩
    · exact ⟨"Table name must be alphanumeric", by simp [h1, h]⟩

/-- Witness for C2 at a concrete input. -/
theorem C2_witness :
    s_conn.connected = true ∧ (0 : Int) ≤ 0
    ∧ create_table s_conn "t" 0 = (s_conn, Except.error ⟨ErrKind.databaseError,
        "Failed to create table: Vector dimension must be positive"⟩)
    ∧ (∃ m, TableConfig.validate "a b" 3 = Except.error ⟨ErrKind.validationError, m⟩) :=
  ⟨rfl, by decide, (C2_validation s_conn "t" 0 rfl (by decide)).1,
    (C2_validation s_conn "t" 0 rfl (by decide)).2 "a b" 3 (by decide)⟩

/-- Claim C3, counterexample: with no live connection, `list_resources`
does not fail — it silently returns the empty list, contradicting the
claim that absence of a connection is a reportable error for listTables. -/
theorem C3_counterexample :
    initialState.connected = false
    ∧ list_resources initialState = (initialState, Except.ok []) := ⟨rfl, rfl⟩

/-- Claim C3, amended: `list_resources` never fails; with no live
connection it returns the empty sequence (a silent no-op), and with a live
connection it returns the store's table names with the internal `_init`
bookkeeping table filtered out — the empty sequence, not an error, when no
tables exist. -/
theorem C3_list_tables (s : GatewayState) :
    (s.connected = false → list_resources s = (s, Except.ok []))
    ∧ (s.connected = true →
        list_resources s = (s, Except.ok ((tableNames s.store).filter (fun n => n ≠ "_init"))))
    ∧ ∃ l, (list_resources s).2 = Except.ok l := by
  refine ⟨fun h => by simp [list_resources, h], fun h => by simp [list_resources, h], ?_⟩
  by_cases h : s.connected = false
  · exact ⟨[], by simp [list_resources, h]⟩
  · exact ⟨(tableNames s.store).filter (fun n => n ≠ "_init"), by simp [list_resources, h]⟩

/-- Witness for C3 at concrete inputs: a disconnected server and a
connected server with no user tables. -/
theorem C3_witness :
    list_resources initialState = (initialState, Except.ok [])
    ∧ list_resources s_conn = (s_conn, Except.ok []) :=
  ⟨(C3_list_tables initialState).1 rfl, ((C3_list_tables s_conn).2.1 rfl).trans rfl⟩

/-- Claim C4, counterexample: table `t` holds two rows (the creation
placeholder plus one added record); after re-running `create_table` the
previously added record is gone but the table is not empty — it holds
exactly the placeholder zero-vector row, contradicting "the table is empty
again". -/
theorem C4_counterexample :
    (lookupTable s_added.store "t").map (fun t => t.records.length) = some 2
    ∧ lookupTable s_re.store "t" = some { dimension := 3, records := [placeholderRecord 3] }
    ∧ [placeholderRecord 3] ≠ ([] : List StoredRecord) := ⟨rfl, rfl, by simp⟩

/-- Claim C4, amended: for every valid name and dimension, a repeated
`create_table` with the same name replaces the existing table rather than
merging into it — whatever was stored before, afterwards the table contains
exactly the single placeholder zero-vector row that `create_table` seeds
every new table with (so it is not merged, but also not literally empty). -/
theorem C4_overwrite (s : GatewayState) (name : String) (d : Int)
    (hc : s.connected = true) (hd : 0 < d) :
    lookupTable (create_table s name d).1.store name = some (newTable d.toNat)
    ∧ (create_table s name d).2 = Except.ok ("Created table " ++ name)
    ∧ (newTable d.toNat).records = [placeholderRecord d.toNat] := by
  have hd2 : ¬ d ≤ 0 := not_le.mpr hd
  refine ⟨?_, ?_, rfl⟩ <;>
    simp [create_table, create_table_inner, hc, hd2, lookupTable_insertTable]

/-- Witness for C4 at a concrete input: re-creating `t` over `s_added`. -/
theorem C4_witness :
    s_added.connected = true ∧ (0 : Int) < 3
    ∧ lookupTable (create_table s_added "t" 3).1.store "t" = some (newTable 3)
    ∧ (create_table s_added "t" 3).2 = Except.ok ("Created table " ++ "t") :=
  ⟨rfl, by decide, (C4_overwrite s_added "t" 3 rfl (by decide)).1,
    (C4_overwrite s_added "t" 3 rfl (by decide)).2.1⟩

/-- Claim C5, confirmed: for a name neither cached nor present in the
store, `add_vector` and `search_vectors` fail with a
`DatabaseError`-wrapped "not found" message, the state is unchanged, and
those messages are distinguishable from every dimension-mismatch message. -/
theorem C5_table_not_found (rank : List StoredRecord → List Int → List StoredRecord)
    (s : GatewayState) (name : String) (v : List Int)
    (text : Option String) (md : Option Metadata) (lim : Int)
    (hc : s.connected = true)
    (hcache : lookupCache s.cache name = none)
    (hstore : lookupTable s.store name = none) :
    add_vector s name v text md = (s, Except.error ⟨ErrKind.databaseError,
        "Table " ++ name ++ " not found: " ++ openTableErrMsg name⟩)
    ∧ search_vectors rank s name v lim = (s, Except.error ⟨ErrKind.databaseError,
        "Failed to search vectors: " ++ ("Table " ++ name ++ " not found")⟩)
    ∧ (∀ dExp nGot : Nat,
        ("Table " ++ name ++ " not found: " ++ openTableErrMsg name) ≠
          "Vector dimension mismatch: expected " ++ toString dExp ++ ", got " ++ toString nGot)
    ∧ (∀ dExp nGot : Nat,
        ("Failed to search vectors: " ++ ("Table " ++ name ++ " not found")) ≠
          "Failed to search vectors: " ++ ("Query vector dimension mismatch: expected " ++
            toString dExp ++ ", got " ++ toString nGot)) := by
  refine ⟨?_, ?_, ?_, ?_⟩
  · simp [add_vector, add_vector_inner, hc, hcache, hstore]
  · simp [search_vectors, search_vectors_inner, hc, hcache, hstore]
  · intro dExp nGot
    apply string_ne_of_head_ne
    have h1 : ("Table " ++ name ++ " not found: " ++ openTableErrMsg name).data.head? =
        some 'T' := rfl
    have h2 : ("Vector dimension mismatch: expected " ++ toString dExp ++ ", got " ++
        toString nGot).data.head? = some 'V' := rfl
    rw [h1, h2]
    simp
  · intro dExp nGot hEq
    have h3 := string_append_left_cancel hEq
    have h1 : ("Table " ++ name ++ " not found").data.head? = some 'T' := rfl
    have h2 : ("Query vector dimension mismatch: expected " ++ toString dExp ++ ", got " ++
        toString nGot).data.head? = some 'Q' := rfl
    exact string_ne_of_head_ne (by rw [h1, h2]; simp) h3

/-- Witness for C5 at a concrete input: the never-created table `nope`. -/
theorem C5_witness :
    s_conn.connected = true
    ∧ lookupCache s_conn.cache "nope" = none
    ∧ lookupTable s_conn.store "nope" = none
    ∧ add_vector s_conn "nope" [1, 2, 3] none none = (s_conn, Except.error
        ⟨ErrKind.databaseError, "Table " ++ "nope" ++ " not found: " ++ openTableErrMsg "nope"⟩) :=
  ⟨rfl, rfl, rfl,
    (C5_table_not_found (fun l _ => l) s_conn "nope" [1, 2, 3] none none 10 rfl rfl rfl).1⟩

/-- Claim C6, confirmed: with no live connection, `create_table`,
`add_vector` and `search_vectors` all fail with the `DatabaseError`
"not connected" equivalent and leave the state unchanged; `start` is valid
from either state, re-enters the connected state, and repopulates the cache
exclusively with fresh handles (generation `gen + 1`), so no handle cached
before a disconnect is ever reused. -/
theorem C6_state_machine (rank : List StoredRecord → List Int → List StoredRecord)
    (s : GatewayState) (n : String) (d : Int) (v : List Int)
    (text : Option String) (md : Option Metadata) (lim : Int)
    (hinv : ∀ p ∈ s.cache, p.2 ≤ s.gen) :
    (s.connected = false →
      create_table s n d = (s, Except.error ⟨ErrKind.databaseError,
          "Failed to create table: " ++ notInitializedMsg⟩)
      ∧ add_vector s n v text md = (s, Except.error ⟨ErrKind.databaseError, notInitializedMsg⟩)
      ∧ search_vectors rank s n v lim = (s, Except.error ⟨ErrKind.databaseError,
          "Failed to search vectors: " ++ notInitializedMsg⟩))
    ∧ (start s).1.connected = true
    ∧ (stop s).1.connected = false ∧ (stop s).1.cache = []
    ∧ (start (stop s).1).1.connected = true
    ∧ (∀ p ∈ (start (stop s).1).1.cache, p.2 = s.gen + 1 ∧ ∀ q ∈ s.cache, q ≠ p) := by
  refine ⟨?_, rfl, rfl, rfl, rfl, ?_⟩
  · intro hdisc
    refine ⟨?_, ?_, ?_⟩ <;>
      simp [create_table, create_table_inner, add_vector, add_vector_inner,
        search_vectors, search_vectors_inner, hdisc]
  · intro p hp
    have hg : p.2 = s.gen + 1 := start_cache_gen (stop s).1 p hp
    refine ⟨hg, ?_⟩
    intro q hq he
    have := hinv q hq
    rw [he, hg] at this
    omega

/-- Witness for C6 at concrete inputs: `s_t3` (live, one cached handle) and
its disconnected successor. -/
theorem C6_witness :
    (∀ p ∈ s_t3.cache, p.2 ≤ s_t3.gen)
    ∧ (start (stop s_t3).1).1.connected = true
    ∧ (∀ p ∈ (start (stop s_t3).1).1.cache, p.2 = s_t3.gen + 1 ∧ ∀ q ∈ s_t3.cache, q ≠ p)
    ∧ ((stop s_t3).1.connected = false →
        add_vector (stop s_t3).1 "t" [1, 2, 3] none none =
          ((stop s_t3).1, Except.error ⟨ErrKind.databaseError, notInitializedMsg⟩)) := by
  have hinv : ∀ p ∈ s_t3.cache, p.2 ≤ s_t3.gen := by decide
  have h := C6_state_machine (fun l _ => l) s_t3 "t" 3 [1, 2, 3] none none 10 hinv
  have hinv2 : ∀ p ∈ (stop s_t3).1.cache, p.2 ≤ (stop s_t3).1.gen := by decide
  have h2 := C6_state_machine (fun l _ => l) (stop s_t3).1 "t" 3 [1, 2, 3] none none 10 hinv2
  exact ⟨hinv, h.2.2.2.2.1, h.2.2.2.2.2, fun hd => (h2.1 hd).2.1⟩

/-- Claim C7, confirmed: `stop` always succeeds — in particular it is a safe
no-op when no connection is live and never fails for "not connected" — and
its teardown is unconditional: the cache is cleared and the connection
reference dropped (the persisted store untouched), and a second `stop` is
equally safe.  The source's `stop` performs no underlying close call at
all, so the "even when the underlying close raises" clause holds
vacuously. -/
theorem C7_disconnect_safe (s : GatewayState) :
    (stop s).2 = Except.ok () ∧ (stop s).1.cache = [] ∧ (stop s).1.connected = false
    ∧ (stop s).1.store = s.store ∧ (stop (stop s).1).2 = Except.ok () := by
  simp [stop]

/-- Claim C8, confirmed: for a resolvable table whose dimension matches the
query vector and a positive limit, `search_vectors` succeeds with the
store's ranking truncated to `limit` entries: the result length is
`min limit count`, never exceeds `limit`, equals all stored records (up to
the store's ranking order) when `limit` exceeds the count, and is empty —
never an error — on an empty table. -/
theorem C8_search_limit (rank : List StoredRecord → List Int → List StoredRecord)
    (s : GatewayState) (name : String) (t : Table) (qv : List Int) (lim : Int)
    (hrank : ∀ (l : List StoredRecord) (q : List Int), (rank l q).Perm l)
    (hc : s.connected = true)
    (ht : lookupTable s.store name = some t)
    (hq : qv.length = t.dimension)
    (_hlim : 0 < lim) :
    (search_vectors rank s name qv lim).2 = Except.ok ((rank t.records qv).take lim.toNat)
    ∧ ((rank t.records qv).take lim.toNat).length = min lim.toNat t.records.length
    ∧ ((rank t.records qv).take lim.toNat).length ≤ lim.toNat
    ∧ (t.records.length ≤ lim.toNat → ((rank t.records qv).take lim.toNat).Perm t.records)
    ∧ (t.records = [] → (rank t.records qv).take lim.toNat = []) := by
  have hlen := (hrank t.records qv).length_eq
  refine ⟨?_, ?_, ?_, ?_, ?_⟩
  · rcases hcc : lookupCache s.cache name with _ | g <;>
      simp [search_vectors, search_vectors_inner, search_vectors_body, hc, hcc, ht, hq]
  · simp [List.length_take, hlen]
  · simp [List.length_take]
  · intro hle
    rw [List.take_of_length_le (by rw [hlen]; exact hle)]
    exact hrank t.records qv
  · intro hnil
    have h0 : rank t.records qv = [] := List.Perm.eq_nil (hnil ▸ hrank t.records qv)
    simp [h0]

/-- Witness for C8 at a concrete input: searching a 3-row table (`s_two`)
with limit 10 returns all 3 rows. -/
theorem C8_witness :
    (search_vectors (fun l _ => l) s_two "t" [1, 0, 0] 10).2 = Except.ok t_two.records
    ∧ t_two.records.length = 3 :=
  ⟨((C8_search_limit (fun l _ => l) s_two "t" t_two [1, 0, 0] 10
      (fun l _ => List.Perm.refl l) rfl rfl rfl (by decide)).1).trans rfl, rfl⟩

/-- Claim C10, confirmed: on a successful `add_vector`, an empty-string
text and an empty metadata dict are normalized to null before storage —
the call is extensionally identical to passing no text/metadata at all —
while a non-empty metadata dict is stored as its JSON encoding. -/
theorem C10_normalization (s : GatewayState) (name : String) (t : Table) (v : List Int)
    (text : Option String) (md : Metadata)
    (hc : s.connected = true)
    (ht : lookupTable s.store name = some t)
    (hv : v.length = t.dimension)
    (hmd : md ≠ []) :
    add_vector s name v (some "") (some []) = add_vector s name v none none
    ∧ lookupTable (add_vector s name v (some "") (some [])).1.store name =
        some { t with records := t.records ++
          [{ vector := v, text := none, metadata := none }] }
    ∧ lookupTable (add_vector s name v text (some md)).1.store name =
        some { t with records := t.records ++
          [{ vector := v, text := if pyTruthyStr text then text else none,
             metadata := some (jsonDumps md) }] } := by
  refine ⟨?_, ?_, ?_⟩
  · have hrec : mkStoredRecord v (some "") (some []) = mkStoredRecord v none none := rfl
    unfold add_vector add_vector_inner add_vector_body
    rw [hrec]
  · rcases hcc : lookupCache s.cache name with _ | g <;>
      simp [add_vector, add_vector_inner, add_vector_body, hc, hcc, ht, hv,
        lookupTable_updateTableRecords, mkStoredRecord, pyTruthyStr, pyTruthyMeta]
  · rcases md with _ | ⟨kv, mdTail⟩
    · exact absurd rfl hmd
    · have hne := jsonDumps_ne_empty (kv :: mdTail)
      rcases hcc : lookupCache s.cache name with _ | g <;>
        simp [add_vector, add_vector_inner, add_vector_body, hc, hcc, ht, hv,
          lookupTable_updateTableRecords, mkStoredRecord, pyTruthyStr, pyTruthyMeta, hne]

/-- Witness for C10 at a concrete input. -/
theorem C10_witness :
    s_t3.connected = true
    ∧ lookupTable s_t3.store "t" = some (newTable 3)
    ∧ ([1, 2, 3] : List Int).length = (newTable 3).dimension
    ∧ ([("k", "v")] : Metadata) ≠ []
    ∧ add_vector s_t3 "t" [1, 2, 3] (some "") (some []) = add_vector s_t3 "t" [1, 2, 3] none none
    ∧ lookupTable (add_vector s_t3 "t" [1, 2, 3] (some "x") (some [("k", "v")])).1.store "t" =
        some { dimension := 3, records := [placeholderRecord 3,
          { vector := [1, 2, 3], text := some "x", metadata := some "\x7b\"k\": \"v\"\x7d" }] } := by
  have h := C10_normalization s_t3 "t" (newTable 3) [1, 2, 3] (some "x") [("k", "v")]
    rfl rfl rfl (by decide)
  exact ⟨rfl, rfl, rfl, by decide, h.1, h.2.2.trans rfl⟩

end LanceDB
